import Mathlib

/-!
# Verification of the progressive spatial-filtering engine of locationAnalyzer

Shallow embedding of `backend/app/services/location_analyzer.py`,
`backend/app/routers/analysis.py` and `backend/app/core/constants.py`.

Modelling conventions.

* A geometry (shapely polygon / multipolygon / point set) is a set of points
  of the plane, `Geom := Set (ℝ × ℝ)`.  All geometry lives in the single
  planar (UTM) frame fixed at session start: the spec (§4.1) treats
  `project`/`unproject` as an exact bijection between the geographic and the
  planar frame, so the `to_crs` round-trips of the source are modelled as the
  identity on the abstract plane.
* A circular buffer of radius `r` (shapely `buffer`) is the planar dilation
  by `r`; squared distances are used so that no square root is needed.
* Shapely's `Polygon(vertices)` constructor (the region enclosed by a vertex
  ring) is kept abstract: it enters as an explicit parameter
  `P : List Point → Geom` of every definition that uses it, exactly like the
  external geocoding / feature-provider collaborators, which enter as oracle
  functions.  No claim depends on its value.
* Python floats are modelled as real numbers (`ℝ`) in the geometry code and
  as rationals (`ℚ`) in the criterion-ranking code, where decidability of
  comparisons is needed.
* `_get_pois` catches every exception of its external calls and returns
  `None`; it is therefore modelled as a total oracle
  `Geom → Option (List Feature)` from the queried polygon to the returned
  feature rows.
-/

namespace LocAnalyzer

/-- A point of the planar (projected) frame. -/
abbrev Point : Type := ℝ × ℝ

/-- A geometry: an arbitrary region of the plane. -/
abbrev Geom : Type := Set Point

/-- Squared Euclidean distance between two planar points. -/
noncomputable def sqDist (p q : Point) : ℝ :=
  (p.1 - q.1) ^ 2 + (p.2 - q.2) ^ 2

/-- Planar dilation of a region by a distance `r` (shapely `buffer(r)` with
`r ≥ 0`): all points within distance `r` of the region. -/
noncomputable def dilate (s : Geom) (r : ℝ) : Geom :=
  {p : Point | ∃ q ∈ s, sqDist p q ≤ r ^ 2}

/-- Planar erosion of a region by a distance `r` (shapely `buffer(-r)`):
all points whose whole `r`-disk lies inside the region. -/
noncomputable def erode (s : Geom) (r : ℝ) : Geom :=
  {p : Point | ∀ q : Point, sqDist p q ≤ r ^ 2 → q ∈ s}

/-- Union of a list of geometries (`GeoSeries.union_all` / `unary_union`). -/
def unionAll (l : List Geom) : Geom :=
  l.foldr (· ∪ ·) ∅

/-- Miles-to-meters factor used throughout the source (`1609.34`). -/
noncomputable def MILES_TO_METERS : ℝ := 1609.34

/-- `constants.MAX_QUERY_EXPANSION_MILES = 5.0`. -/
noncomputable def MAX_QUERY_EXPANSION_MILES : ℝ := 5.0

/-- `constants.TRAVEL_SPEEDS.get(mode, TRAVEL_SPEEDS["walk"])` — the lookup
with default done by `add_travel_time_criterion`. -/
noncomputable def TRAVEL_SPEEDS_get (mode : String) : ℝ :=
  if mode = "walk" then 3.0
  else if mode = "bike" then 12.0
  else if mode = "drive" then 30.0
  else 3.0

/-- `constants.BUFFER_ADJUSTMENTS.get(mode, 1.2)` — the lookup with default
done by `add_travel_time_criterion`. -/
noncomputable def BUFFER_ADJUSTMENTS_get (mode : String) : ℝ :=
  if mode = "walk" then 1.2
  else if mode = "bike" then 1.3
  else if mode = "drive" then 1.5
  else 1.2

/-- `mode_variation.get(travel_mode, 0.20)` in `_create_realistic_buffer`:
the mode-specific variation intensity, defaulting to the bike value. -/
noncomputable def modeVariation_get (mode : String) : ℝ :=
  if mode = "walk" then 0.15
  else if mode = "bike" then 0.20
  else if mode = "drive" then 0.25
  else 0.20

/-- `angle = (2 * math.pi * i) / num_vertices` with `num_vertices = 36`. -/
noncomputable def bufferAngle (i : ℕ) : ℝ :=
  2 * Real.pi * (i : ℝ) / 36

/-- The sine-harmonic radial variation of `_create_realistic_buffer`. -/
noncomputable def sineVariation (angle : ℝ) : ℝ :=
  0.12 * Real.sin (2 * angle + 0.3)
    + 0.08 * Real.sin (4 * angle + 1.2)
    + 0.05 * Real.sin (3 * angle + 2.1)
    + 0.04 * Real.sin (5 * angle + 0.7)

/-- `adjusted_distance = distance_meters * (1 + variation)` where the raw
variation is scaled by `variation_intensity / 0.20`: the radius of vertex
`i` of the anisotropic buffer. -/
noncomputable def adjustedDistance (distance_meters : ℝ) (mode : String) (i : ℕ) : ℝ :=
  distance_meters *
    (1 + sineVariation (bufferAngle i) * (modeVariation_get mode / 0.20))

/-- Vertex `i` of the 36-gon built by `_create_realistic_buffer`. -/
noncomputable def bufferVertex (cx cy distance_meters : ℝ) (mode : String) (i : ℕ) : Point :=
  (cx + adjustedDistance distance_meters mode i * Real.cos (bufferAngle i),
   cy + adjustedDistance distance_meters mode i * Real.sin (bufferAngle i))

/-- The full vertex list `[v_0, …, v_35]` of `_create_realistic_buffer`. -/
noncomputable def realisticBufferVertices (cx cy distance_meters : ℝ) (mode : String) :
    List Point :=
  (List.range 36).map (bufferVertex cx cy distance_meters mode)

/-- `_create_realistic_buffer`: the polygon of the 36 vertices (built by the
shapely `Polygon` constructor, abstracted as `P`), smoothed by dilating and
then eroding by `0.01 * distance_meters`. -/
noncomputable def create_realistic_buffer (P : List Point → Geom)
    (cx cy distance_meters : ℝ) (mode : String) : Geom :=
  erode
    (dilate (P (realisticBufferVertices cx cy distance_meters mode))
      (distance_meters * 0.01))
    (distance_meters * 0.01)

/-- One feature row returned by `_get_pois` (geocoded point or OSM feature):
its geometry, the centroid shapely reports for it, and its `geom_type`. -/
structure Feature where
  geometry : Geom
  centroid : Point
  geomType : String

/-- The information content of the per-criterion `description` f-string
(decimal formatting of floats is outside the model). -/
inductive Desc where
  | simple (miles : ℝ)
  | travel (mode : String) (minutes : ℤ)

/-- One entry of `self.criteria_results`. -/
structure CriterionResult where
  name : String
  geometry : Geom
  description : Desc

/-- The mutable fields of `LocationAnalyzer` touched by criterion
application: the fixed initial boundary, the shrinking current area, and the
ordered result list. -/
structure AnalyzerState where
  search_boundary : Geom
  current_search_area : Geom
  criteria_results : List CriterionResult

/-- `LocationAnalyzer.__init__` after a successful geocode of the center:
the initial boundary is the circular disk of `max_radius_miles * 1609.34`
meters around the center, and the current area starts as that boundary. -/
noncomputable def initAnalyzer (center : Point) (max_radius_miles : ℝ) : AnalyzerState :=
  { search_boundary := dilate {center} (max_radius_miles * MILES_TO_METERS)
    current_search_area := dilate {center} (max_radius_miles * MILES_TO_METERS)
    criteria_results := [] }

/-- Python truthiness of the `poi_type` dict argument (`None` and the empty
dict are falsy). -/
def truthyTags : Option (List (String × String)) → Bool
  | none => false
  | some l => !l.isEmpty

/-- Python truthiness of the `specific_location` string argument (`None` and
the empty string are falsy). -/
def truthyStr : Option String → Bool
  | none => false
  | some s => !(s == "")

/-- Python `criterion_name or default` (falsy name falls back to the
default). -/
def orDefault (o : Option String) (d : String) : String :=
  match o with
  | none => d
  | some s => if s == "" then d else s

/-- `_create_expanded_query_area`: cap the expansion at
`MAX_QUERY_EXPANSION_MILES`; a non-positive capped expansion returns the
current area unchanged, otherwise dilate the current area by the capped
expansion (in meters) and intersect with the original search boundary. -/
noncomputable def create_expanded_query_area (st : AnalyzerState)
    (expansion_miles : ℝ) : Geom :=
  let capped := min expansion_miles MAX_QUERY_EXPANSION_MILES
  if capped ≤ 0 then st.current_search_area
  else dilate st.current_search_area (capped * MILES_TO_METERS) ∩ st.search_boundary

/-- The state update that ends a successful criterion application: swap
`current_search_area` and append the `CriterionResult`. -/
def criterionUpdate (st : AnalyzerState) (name : String) (d : Desc) (g : Geom) :
    AnalyzerState :=
  { st with
    current_search_area := g
    criteria_results := st.criteria_results ++ [⟨name, g, d⟩] }

/-- Arguments of `add_simple_buffer_criterion`. -/
structure SimpleArgs where
  poi_type : Option (List (String × String))
  specific_location : Option String
  max_distance_miles : ℝ
  criterion_name : Option String

/-- The polygon `add_simple_buffer_criterion` queries the feature provider
against: expanded when a POI-type search (truthy `poi_type`, falsy
`specific_location`), the current area otherwise. -/
noncomputable def simpleQueryArea (st : AnalyzerState) (a : SimpleArgs) : Geom :=
  if truthyTags a.poi_type && !truthyStr a.specific_location then
    create_expanded_query_area st a.max_distance_miles
  else st.current_search_area

/-- The raw combined buffer of the simple path: each feature's geometry is
dilated by `buffer_meters` (`pois_projected.geometry.buffer`) and the
buffers are unioned (`union_all`). -/
noncomputable def simpleCombinedBuffer (pois : List Feature) (buffer_meters : ℝ) : Geom :=
  unionAll (pois.map fun f => dilate f.geometry buffer_meters)

/-- `add_simple_buffer_criterion` (success path assumes every external
geometry call succeeds; the exception-aware version is below).  Skips with
no state change when the POI lookup returns `None` or zero rows; otherwise
intersects the combined circular buffer with the current area, swaps it in
and appends the result. -/
noncomputable def add_simple_buffer_criterion
    (oracle : Geom → Option (List Feature)) (a : SimpleArgs)
    (st : AnalyzerState) : AnalyzerState × Option Geom :=
  let query_area := simpleQueryArea st a
  match oracle query_area with
  | none => (st, none)
  | some pois =>
    if pois.isEmpty then (st, none)
    else
      let buffer_meters := a.max_distance_miles * MILES_TO_METERS
      let result_geometry := simpleCombinedBuffer pois buffer_meters ∩ st.current_search_area
      (criterionUpdate st (orDefault a.criterion_name "Buffer")
        (Desc.simple a.max_distance_miles) result_geometry,
       some result_geometry)

/-- Arguments of `add_travel_time_criterion`. -/
structure TravelArgs where
  poi_type : Option (List (String × String))
  specific_location : Option String
  max_time_minutes : ℤ
  travel_mode : String
  criterion_name : Option String

/-- `max_distance_miles = (max_time_minutes / 60) * speed_mph` followed by
`adjusted_distance = max_distance_miles / adjustment`. -/
noncomputable def travelAdjustedDistance (minutes : ℤ) (mode : String) : ℝ :=
  ((minutes : ℝ) / 60 * TRAVEL_SPEEDS_get mode) / BUFFER_ADJUSTMENTS_get mode

/-- The polygon `add_travel_time_criterion` queries the feature provider
against. -/
noncomputable def travelQueryArea (st : AnalyzerState) (a : TravelArgs) : Geom :=
  if truthyTags a.poi_type && !truthyStr a.specific_location then
    create_expanded_query_area st
      (travelAdjustedDistance a.max_time_minutes a.travel_mode)
  else st.current_search_area

/-- The raw combined buffer of the travel-time path: one anisotropic buffer
per feature, placed at the feature's centroid, unioned (`unary_union`). -/
noncomputable def travelCombinedBuffer (P : List Point → Geom)
    (pois : List Feature) (buffer_meters : ℝ) (mode : String) : Geom :=
  unionAll (pois.map fun f =>
    create_realistic_buffer P f.centroid.1 f.centroid.2 buffer_meters mode)

/-- `add_travel_time_criterion` (success path).  Same skip semantics as the
simple path; on success intersects the combined anisotropic buffer with the
current area, swaps it in and appends the result. -/
noncomputable def add_travel_time_criterion (P : List Point → Geom)
    (oracle : Geom → Option (List Feature)) (a : TravelArgs)
    (st : AnalyzerState) : AnalyzerState × Option Geom :=
  let adjusted_distance := travelAdjustedDistance a.max_time_minutes a.travel_mode
  let query_area := travelQueryArea st a
  match oracle query_area with
  | none => (st, none)
  | some pois =>
    if pois.isEmpty then (st, none)
    else
      let buffer_meters := adjusted_distance * MILES_TO_METERS
      let result_geometry :=
        travelCombinedBuffer P pois buffer_meters a.travel_mode ∩ st.current_search_area
      (criterionUpdate st (orDefault a.criterion_name "Travel Time")
        (Desc.travel a.travel_mode a.max_time_minutes) result_geometry,
       some result_geometry)

/-- One criterion application, with its external collaborators attached:
either method of the analyzer, applied to the state. -/
inductive CriterionApp where
  | simple (oracle : Geom → Option (List Feature)) (a : SimpleArgs)
  | travel (P : List Point → Geom) (oracle : Geom → Option (List Feature)) (a : TravelArgs)

/-- Apply one criterion to the state (the state component of either
method's result). -/
noncomputable def applyCriterion (c : CriterionApp) (st : AnalyzerState) : AnalyzerState :=
  match c with
  | .simple oracle a => (add_simple_buffer_criterion oracle a st).1
  | .travel P oracle a => (add_travel_time_criterion P oracle a st).1

/-- Apply a list of criteria in order. -/
noncomputable def applyAll (cs : List CriterionApp) (st : AnalyzerState) : AnalyzerState :=
  cs.foldl (fun s c => applyCriterion c s) st

/-! ## The router layer (`backend/app/routers/analysis.py`) -/

/-- `schemas.TravelMode`. -/
inductive TravelMode where
  | walk | bike | drive | distance
deriving DecidableEq

/-- The `.value` string of a `TravelMode`. -/
def TravelMode.str : TravelMode → String
  | .walk => "walk"
  | .bike => "bike"
  | .drive => "drive"
  | .distance => "distance"

/-- `schemas.CriterionType`. -/
inductive CriterionType where
  | poi | location
deriving DecidableEq

/-- The `.value` string of a `CriterionType`. -/
def CriterionType.str : CriterionType → String
  | .poi => "poi"
  | .location => "location"

/-- `schemas.Criterion`: one requested proximity criterion.  `value` (a
Python float) is modelled as a rational. -/
structure Criterion where
  type : CriterionType
  poi_type : Option String
  location : Option String
  mode : TravelMode
  value : ℚ
deriving DecidableEq

/-- `constants.POI_TYPES.get(name)`: the OSM-tag dict for a POI type name
(`None` for an unknown name or a `None` key). -/
def POI_TYPES_get : Option String → Option (List (String × String))
  | none => none
  | some n =>
    if n = "Grocery Store" then some [("shop", "supermarket")]
    else if n = "School" then some [("amenity", "school")]
    else if n = "Elementary School" then some [("amenity", "school")]
    else if n = "Park" then some [("leisure", "park")]
    else if n = "Restaurant" then some [("amenity", "restaurant")]
    else if n = "Italian Restaurant" then
      some [("amenity", "restaurant"), ("cuisine", "italian")]
    else if n = "Coffee Shop" then some [("amenity", "cafe")]
    else if n = "Hospital" then some [("amenity", "hospital")]
    else if n = "Pharmacy" then some [("amenity", "pharmacy")]
    else if n = "Library" then some [("amenity", "library")]
    else if n = "Gym/Fitness" then some [("leisure", "fitness_centre")]
    else if n = "Bus Stop" then some [("highway", "bus_stop")]
    else if n = "Subway Station" then some [("station", "subway")]
    else if n = "Bank" then some [("amenity", "bank")]
    else if n = "Bar" then some [("amenity", "bar")]
    else if n = "Cocktail Bar" then some [("amenity", "bar")]
    else if n = "Gas Station" then some [("amenity", "fuel")]
    else if n = "Shopping Mall" then some [("shop", "mall")]
    else if n = "Post Office" then some [("amenity", "post_office")]
    else if n = "Fire Station" then some [("amenity", "fire_station")]
    else if n = "Police Station" then some [("amenity", "police")]
    else if n = "Playground" then some [("leisure", "playground")]
    else if n = "Swimming Pool" then some [("leisure", "swimming_pool")]
    else if n = "Museum" then some [("tourism", "museum")]
    else if n = "Hotel" then some [("tourism", "hotel")]
    else none

/-- `mode_scores.get(criterion.mode.value, 0)` in
`_calculate_criterion_priority`. -/
def modeScores_get (mode : String) : ℕ :=
  if mode = "distance" then 0
  else if mode = "walk" then 1
  else if mode = "bike" then 2
  else if mode = "drive" then 3
  else 0

/-- `_calculate_criterion_priority`: the sort key
`(type_score, mode_score, normalized_value)`. -/
def calculate_criterion_priority (c : Criterion) : ℕ × ℕ × ℚ :=
  (if c.type.str = "location" then 0 else 1,
   modeScores_get c.mode.str,
   if c.mode.str = "distance" then c.value
   else if c.mode.str = "walk" then c.value / 60 * 3 / 1.2
   else if c.mode.str = "bike" then c.value / 60 * 12 / 1.3
   else c.value / 60 * 30 / 1.5)

/-- Lexicographic `≤` on the priority triple — the order Python's tuple
comparison induces on the sort keys. -/
def priorityLE (x y : ℕ × ℕ × ℚ) : Bool :=
  if x.1 < y.1 then true
  else if x.1 = y.1 then
    if x.2.1 < y.2.1 then true
    else if x.2.1 = y.2.1 then decide (x.2.2 ≤ y.2.2)
    else false
  else false

/-- The comparison `_order_criteria_smart` effectively sorts by. -/
def criterionLE (a b : Criterion) : Bool :=
  priorityLE (calculate_criterion_priority a) (calculate_criterion_priority b)

/-- `_order_criteria_smart`: `sorted(criteria, key=_calculate_criterion_priority)`
— a stable ascending sort by the priority key. -/
def order_criteria_smart (l : List Criterion) : List Criterion :=
  l.mergeSort criterionLE

/-- Python `int(value)` on a float: truncation toward zero. -/
def pyInt (q : ℚ) : ℤ :=
  if q < 0 then ⌈q⌉ else ⌊q⌋

/-- The call `analyze_location` makes into the analyzer for one criterion. -/
inductive AnalyzerCall where
  | simpleBuffer (poi_type : Option (List (String × String)))
      (specific_location : Option String)
      (max_distance_miles : ℚ) (criterion_name : Option String)
  | travelTime (specific_location : Option String)
      (max_time_minutes : ℤ) (travel_mode : String)
      (criterion_name : Option String)
deriving DecidableEq

/-- Whether a call is to `add_travel_time_criterion`. -/
def AnalyzerCall.isTravelTime : AnalyzerCall → Bool
  | .travelTime _ _ _ _ => true
  | .simpleBuffer _ _ _ _ => false

/-- The criterion dispatch of `analyze_location`: POI-type criteria always
go to `add_simple_buffer_criterion` (with the raw `value` as miles);
location criteria go to the simple buffer for distance mode and to
`add_travel_time_criterion` for the time modes. -/
def dispatchCriterion (c : Criterion) : AnalyzerCall :=
  if c.type.str = "poi" then
    .simpleBuffer (POI_TYPES_get c.poi_type) none c.value c.poi_type
  else
    if c.mode.str = "distance" then
      .simpleBuffer none c.location c.value (c.location.map fun s => s.take 30)
    else
      .travelTime c.location (pyInt c.value) c.mode.str
        (c.location.map fun s => s.take 30)

/-! ## Exception-aware view of the two criterion methods

Every external library call of `add_simple_buffer_criterion` /
`add_travel_time_criterion` may raise.  Each call site becomes a fallible
oracle field below, in source order; `_get_pois` catches its own exceptions
and stays total.  A run returns `Except.error (msg, st')` when a call
raises, where `st'` is the analyzer state at the moment the exception
escapes the method. -/

/-- The fallible external calls (geopandas / shapely / osmnx), one field per
call site of the two criterion methods, in source order. -/
structure FallibleOps where
  /-- `_create_expanded_query_area` (its `to_crs`/`buffer` internals). -/
  expandQueryArea : AnalyzerState → ℝ → Except String Geom
  /-- `_get_pois` — total: it catches every exception and returns `None`. -/
  getPois : Geom → Option (List Feature)
  /-- `pois.to_crs(self.utm_crs)`. -/
  projectFeatures : List Feature → Except String (List Feature)
  /-- `pois_projected.geometry.buffer(buffer_meters)` (simple path). -/
  bufferEach : List Geom → ℝ → Except String (List Geom)
  /-- `buffers.union_all()` / `unary_union(realistic_buffers)`. -/
  unionAllGeoms : List Geom → Except String Geom
  /-- `GeoDataFrame(...).to_crs(self.crs)` back to the geographic frame. -/
  unprojectGeom : Geom → Except String Geom
  /-- `.intersection(self.current_search_area)`. -/
  intersectGeom : Geom → Geom → Except String Geom
  /-- `self._calculate_area_sq_miles(result_geometry)` — called after the
  two state writes. -/
  areaSqMiles : Geom → Except String ℝ

/-- `add_simple_buffer_criterion` with every external call fallible.  The
two state writes are the single `criterionUpdate` after the intersection
succeeds; only `_calculate_area_sq_miles` runs after them. -/
noncomputable def add_simple_buffer_criterion_run (K : FallibleOps) (a : SimpleArgs)
    (st : AnalyzerState) : Except (String × AnalyzerState) (AnalyzerState × Option Geom) :=
  match
    (if truthyTags a.poi_type && !truthyStr a.specific_location then
      K.expandQueryArea st a.max_distance_miles
    else Except.ok st.current_search_area) with
  | .error e => .error (e, st)
  | .ok query_area =>
  match K.getPois query_area with
  | none => .ok (st, none)
  | some pois =>
  if pois.isEmpty then .ok (st, none)
  else
  match K.projectFeatures pois with
  | .error e => .error (e, st)
  | .ok pois_projected =>
  match K.bufferEach (pois_projected.map (·.geometry))
      (a.max_distance_miles * MILES_TO_METERS) with
  | .error e => .error (e, st)
  | .ok buffers =>
  match K.unionAllGeoms buffers with
  | .error e => .error (e, st)
  | .ok combined_buffer =>
  match K.unprojectGeom combined_buffer with
  | .error e => .error (e, st)
  | .ok unprojected =>
  match K.intersectGeom unprojected st.current_search_area with
  | .error e => .error (e, st)
  | .ok result_geometry =>
  match K.areaSqMiles result_geometry with
  | .error e => .error (e, criterionUpdate st (orDefault a.criterion_name "Buffer")
      (Desc.simple a.max_distance_miles) result_geometry)
  | .ok _ => .ok (criterionUpdate st (orDefault a.criterion_name "Buffer")
      (Desc.simple a.max_distance_miles) result_geometry, some result_geometry)

/-- `add_travel_time_criterion` with every external call fallible.  The
per-feature `_create_realistic_buffer` loop is the deterministic internal
algorithm (spec §4.3) and cannot raise. -/
noncomputable def add_travel_time_criterion_run (P : List Point → Geom)
    (K : FallibleOps) (a : TravelArgs) (st : AnalyzerState) :
    Except (String × AnalyzerState) (AnalyzerState × Option Geom) :=
  match
    (if truthyTags a.poi_type && !truthyStr a.specific_location then
      K.expandQueryArea st (travelAdjustedDistance a.max_time_minutes a.travel_mode)
    else Except.ok st.current_search_area) with
  | .error e => .error (e, st)
  | .ok query_area =>
  match K.getPois query_area with
  | none => .ok (st, none)
  | some pois =>
  if pois.isEmpty then .ok (st, none)
  else
  match K.projectFeatures pois with
  | .error e => .error (e, st)
  | .ok pois_projected =>
  match K.unionAllGeoms (pois_projected.map fun f =>
      create_realistic_buffer P f.centroid.1 f.centroid.2
        (travelAdjustedDistance a.max_time_minutes a.travel_mode * MILES_TO_METERS)
        a.travel_mode) with
  | .error e => .error (e, st)
  | .ok combined_buffer =>
  match K.unprojectGeom combined_buffer with
  | .error e => .error (e, st)
  | .ok unprojected =>
  match K.intersectGeom unprojected st.current_search_area with
  | .error e => .error (e, st)
  | .ok result_geometry =>
  match K.areaSqMiles result_geometry with
  | .error e => .error (e, criterionUpdate st (orDefault a.criterion_name "Travel Time")
      (Desc.travel a.travel_mode a.max_time_minutes) result_geometry)
  | .ok _ => .ok (criterionUpdate st (orDefault a.criterion_name "Travel Time")
      (Desc.travel a.travel_mode a.max_time_minutes) result_geometry, some result_geometry)

/-- The states an escaping exception may leave behind: exactly the pre-call
state, or the fully-updated state of a completed criterion (both writes
done, mutually consistent) — never a partial update. -/
def AtomicOutcome (st st' : AnalyzerState) : Prop :=
  st' = st ∨ ∃ name d g, st' = criterionUpdate st name d g

/-! ## Concrete fixtures used by witnesses and counterexamples -/

/-- A session state whose boundary and current area are the whole plane. -/
def stDemo : AnalyzerState := ⟨Set.univ, Set.univ, []⟩

/-- A single point feature at the origin. -/
def fPointDemo : Feature := ⟨{((0 : ℝ), (0 : ℝ))}, ((0 : ℝ), (0 : ℝ)), "Point"⟩

/-! ## Helper lemmas on the criterion steps -/

theorem criterionUpdate_boundary (st : AnalyzerState) (name : String) (d : Desc) (g : Geom) :
    (criterionUpdate st name d g).search_boundary = st.search_boundary := rfl

theorem applyCriterion_boundary (c : CriterionApp) (st : AnalyzerState) :
    (applyCriterion c st).search_boundary = st.search_boundary := by
  cases c with
  | simple oracle a =>
    simp only [applyCriterion, add_simple_buffer_criterion]
    split
    · rfl
    · split
      · rfl
      · rfl
  | travel P oracle a =>
    simp only [applyCriterion, add_travel_time_criterion]
    split
    · rfl
    · split
      · rfl
      · rfl

theorem applyCriterion_subset (c : CriterionApp) (st : AnalyzerState) :
    (applyCriterion c st).current_search_area ⊆ st.current_search_area := by
  cases c with
  | simple oracle a =>
    simp only [applyCriterion, add_simple_buffer_criterion]
    split
    · exact subset_rfl
    · split
      · exact subset_rfl
      · exact Set.inter_subset_right
  | travel P oracle a =>
    simp only [applyCriterion, add_travel_time_criterion]
    split
    · exact subset_rfl
    · split
      · exact subset_rfl
      · exact Set.inter_subset_right

theorem applyCriterion_inter_or_skip (c : CriterionApp) (st : AnalyzerState) :
    (applyCriterion c st).current_search_area = st.current_search_area ∨
      ∃ g : Geom, (applyCriterion c st).current_search_area = g ∩ st.current_search_area := by
  cases c with
  | simple oracle a =>
    simp only [applyCriterion, add_simple_buffer_criterion]
    split
    · exact Or.inl rfl
    · split
      · exact Or.inl rfl
      · exact Or.inr ⟨_, rfl⟩
  | travel P oracle a =>
    simp only [applyCriterion, add_travel_time_criterion]
    split
    · exact Or.inl rfl
    · split
      · exact Or.inl rfl
      · exact Or.inr ⟨_, rfl⟩

theorem applyAll_boundary (cs : List CriterionApp) (st : AnalyzerState) :
    (applyAll cs st).search_boundary = st.search_boundary := by
  induction cs generalizing st with
  | nil => rfl
  | cons c cs ih =>
    show (applyAll cs (applyCriterion c st)).search_boundary = _
    rw [ih, applyCriterion_boundary]

theorem applyAll_subset (cs : List CriterionApp) (st : AnalyzerState) :
    (applyAll cs st).current_search_area ⊆ st.current_search_area := by
  induction cs generalizing st with
  | nil => exact subset_rfl
  | cons c cs ih =>
    exact (ih (applyCriterion c st)).trans (applyCriterion_subset c st)

/-! ## Claims C1, C2, C5 -/

/-- Claim C1 — Monotonicity: applying any criterion (simple-buffer or
travel-time, successful or skipped) never increases the planar area
(Lebesgue measure) of `current_search_area`, because an update only ever
replaces the area by an intersection of itself with the criterion buffer. -/
theorem area_monotone_per_criterion (c : CriterionApp) (st : AnalyzerState) :
    MeasureTheory.volume (applyCriterion c st).current_search_area ≤
      MeasureTheory.volume st.current_search_area :=
  MeasureTheory.measure_mono (applyCriterion_subset c st)

/-- Claim C2 — Containment: a session starts with
`current_search_area = search_boundary`; after any sequence of criterion
applications, `current_search_area` is still a geometric subset of the
initial circular boundary, and every single update either leaves the area
unchanged (skip) or replaces it by an intersection of itself. -/
theorem current_area_contained_in_boundary (center : Point) (r : ℝ)
    (cs : List CriterionApp) :
    (initAnalyzer center r).current_search_area = (initAnalyzer center r).search_boundary ∧
    (applyAll cs (initAnalyzer center r)).current_search_area ⊆
      (initAnalyzer center r).search_boundary ∧
    ∀ (c : CriterionApp) (st : AnalyzerState),
      (applyCriterion c st).current_search_area = st.current_search_area ∨
        ∃ g : Geom, (applyCriterion c st).current_search_area = g ∩ st.current_search_area :=
  ⟨rfl, applyAll_subset cs (initAnalyzer center r), applyCriterion_inter_or_skip⟩

/-- Claim C5 — Skip semantics: when the POI lookup returns `None` (geocode
failure / provider error) or zero rows, both criterion methods return
`None` with the analyzer state — current area, boundary and recorded
results — exactly unchanged. -/
theorem skip_on_empty_pois (oracle oracle2 : Geom → Option (List Feature))
    (a : SimpleArgs) (a2 : TravelArgs) (P : List Point → Geom) (st : AnalyzerState) :
    (oracle (simpleQueryArea st a) = none ∨ oracle (simpleQueryArea st a) = some [] →
      add_simple_buffer_criterion oracle a st = (st, none)) ∧
    (oracle2 (travelQueryArea st a2) = none ∨ oracle2 (travelQueryArea st a2) = some [] →
      add_travel_time_criterion P oracle2 a2 st = (st, none)) := by
  constructor
  · rintro (h | h) <;> simp [add_simple_buffer_criterion, h]
  · rintro (h | h) <;> simp [add_travel_time_criterion, h]

/-- Witness for C5 at a concrete state and concrete failing lookups. -/
theorem skip_on_empty_pois_witness :
    add_simple_buffer_criterion (fun _ => none)
      ⟨some [("amenity", "school")], none, 1, some "Schools"⟩ stDemo = (stDemo, none) ∧
    add_travel_time_criterion (fun _ => ∅) (fun _ => some [])
      ⟨some [("leisure", "park")], none, 10, "walk", some "Parks"⟩ stDemo = (stDemo, none) :=
  ⟨(skip_on_empty_pois (fun _ => none) (fun _ => some [])
      ⟨some [("amenity", "school")], none, 1, some "Schools"⟩
      ⟨some [("leisure", "park")], none, 10, "walk", some "Parks"⟩
      (fun _ => ∅) stDemo).1 (Or.inl rfl),
   (skip_on_empty_pois (fun _ => none) (fun _ => some [])
      ⟨some [("amenity", "school")], none, 1, some "Schools"⟩
      ⟨some [("leisure", "park")], none, 10, "walk", some "Parks"⟩
      (fun _ => ∅) stDemo).2 (Or.inr rfl)⟩

/-! ## Claim C7 — query-area expansion -/

/-- Claim C7 — Query-area expansion: for a POI-type criterion (truthy tag
dict, no specific location) with a positive effective distance, the polygon
sent to the feature provider equals the dilation of `current_search_area`
by `min(effective_distance, 5.0)` miles intersected with the initial
boundary; it never extends beyond the boundary, and the dilation distance
is capped at `MAX_QUERY_EXPANSION_MILES = 5.0` even for a 50-mile request.
Criteria with a specific location (or no tag dict) query the unexpanded
current area. -/
theorem query_area_expansion_capped (st : AnalyzerState) (a : SimpleArgs) (a2 : TravelArgs)
    (h1 : truthyTags a.poi_type = true) (h2 : truthyStr a.specific_location = false)
    (h3 : 0 < a.max_distance_miles)
    (h4 : truthyTags a2.poi_type = true) (h5 : truthyStr a2.specific_location = false)
    (h6 : 0 < travelAdjustedDistance a2.max_time_minutes a2.travel_mode) :
    simpleQueryArea st a =
      dilate st.current_search_area
        (min a.max_distance_miles MAX_QUERY_EXPANSION_MILES * MILES_TO_METERS) ∩
        st.search_boundary ∧
    simpleQueryArea st a ⊆ st.search_boundary ∧
    min a.max_distance_miles MAX_QUERY_EXPANSION_MILES ≤ MAX_QUERY_EXPANSION_MILES ∧
    travelQueryArea st a2 =
      dilate st.current_search_area
        (min (travelAdjustedDistance a2.max_time_minutes a2.travel_mode)
          MAX_QUERY_EXPANSION_MILES * MILES_TO_METERS) ∩ st.search_boundary ∧
    travelQueryArea st a2 ⊆ st.search_boundary ∧
    min (travelAdjustedDistance a2.max_time_minutes a2.travel_mode)
      MAX_QUERY_EXPANSION_MILES ≤ MAX_QUERY_EXPANSION_MILES ∧
    (∀ a' : SimpleArgs, truthyTags a'.poi_type = false ∨ truthyStr a'.specific_location = true →
      simpleQueryArea st a' = st.current_search_area) ∧
    (∀ a' : TravelArgs, truthyTags a'.poi_type = false ∨ truthyStr a'.specific_location = true →
      travelQueryArea st a' = st.current_search_area) := by
  have hmax : (0 : ℝ) < MAX_QUERY_EXPANSION_MILES := by norm_num [MAX_QUERY_EXPANSION_MILES]
  have hsimple : simpleQueryArea st a =
      dilate st.current_search_area
        (min a.max_distance_miles MAX_QUERY_EXPANSION_MILES * MILES_TO_METERS) ∩
        st.search_boundary := by
    have hpos : ¬ (min a.max_distance_miles MAX_QUERY_EXPANSION_MILES ≤ 0) :=
      not_le.mpr (lt_min h3 hmax)
    simp [simpleQueryArea, h1, h2, create_expanded_query_area, hpos]
  have htravel : travelQueryArea st a2 =
      dilate st.current_search_area
        (min (travelAdjustedDistance a2.max_time_minutes a2.travel_mode)
          MAX_QUERY_EXPANSION_MILES * MILES_TO_METERS) ∩ st.search_boundary := by
    have hpos : ¬ (min (travelAdjustedDistance a2.max_time_minutes a2.travel_mode)
        MAX_QUERY_EXPANSION_MILES ≤ 0) := not_le.mpr (lt_min h6 hmax)
    simp [travelQueryArea, h4, h5, create_expanded_query_area, hpos]
  refine ⟨hsimple, ?_, min_le_right _ _, htravel, ?_, min_le_right _ _, ?_, ?_⟩
  · rw [hsimple]; exact Set.inter_subset_right
  · rw [htravel]; exact Set.inter_subset_right
  · rintro a' (h | h) <;> simp [simpleQueryArea, h]
  · rintro a' (h | h) <;> simp [travelQueryArea, h]

/-- Witness for C7: a 50-mile expansion request on a concrete state is
capped at 5 miles and stays inside the boundary. -/
theorem query_area_expansion_capped_witness :
    simpleQueryArea stDemo ⟨some [("amenity", "school")], none, 50, some "Schools"⟩ =
      dilate stDemo.current_search_area
        (min 50 MAX_QUERY_EXPANSION_MILES * MILES_TO_METERS) ∩ stDemo.search_boundary ∧
    simpleQueryArea stDemo ⟨some [("amenity", "school")], none, 50, some "Schools"⟩ ⊆
      stDemo.search_boundary ∧
    min (50 : ℝ) MAX_QUERY_EXPANSION_MILES ≤ MAX_QUERY_EXPANSION_MILES ∧
    travelQueryArea stDemo ⟨some [("leisure", "park")], none, 60, "drive", some "Parks"⟩ =
      dilate stDemo.current_search_area
        (min (travelAdjustedDistance 60 "drive") MAX_QUERY_EXPANSION_MILES *
          MILES_TO_METERS) ∩ stDemo.search_boundary ∧
    travelQueryArea stDemo ⟨some [("leisure", "park")], none, 60, "drive", some "Parks"⟩ ⊆
      stDemo.search_boundary ∧
    min (travelAdjustedDistance 60 "drive") MAX_QUERY_EXPANSION_MILES ≤
      MAX_QUERY_EXPANSION_MILES ∧
    (∀ a' : SimpleArgs, truthyTags a'.poi_type = false ∨ truthyStr a'.specific_location = true →
      simpleQueryArea stDemo a' = stDemo.current_search_area) ∧
    (∀ a' : TravelArgs, truthyTags a'.poi_type = false ∨ truthyStr a'.specific_location = true →
      travelQueryArea stDemo a' = stDemo.current_search_area) :=
  query_area_expansion_capped stDemo
    ⟨some [("amenity", "school")], none, 50, some "Schools"⟩
    ⟨some [("leisure", "park")], none, 60, "drive", some "Parks"⟩
    rfl rfl (by norm_num)
    rfl rfl
    (by simp [travelAdjustedDistance, TRAVEL_SPEEDS_get, BUFFER_ADJUSTMENTS_get]
        norm_num)

/-! ## Claim C10 — fallback for unknown travel modes -/

/-- Claim C10 — for any travel-mode string other than walk/bike/drive, the
travel-time method is total: it falls back to walking speed `3.0` and
buffer adjustment `1.2` for the effective radius, but the anisotropic
buffer shape falls back to the bike-level variation intensity `0.20`
(which differs from the walk intensity used for the radius). -/
theorem unknown_mode_fallback (mode : String)
    (h : ¬(mode = "walk" ∨ mode = "bike" ∨ mode = "drive")) :
    TRAVEL_SPEEDS_get mode = 3.0 ∧
    BUFFER_ADJUSTMENTS_get mode = 1.2 ∧
    modeVariation_get mode = 0.20 ∧
    modeVariation_get mode ≠ modeVariation_get "walk" ∧
    ∀ minutes : ℤ,
      travelAdjustedDistance minutes mode = (minutes : ℝ) / 60 * 3.0 / 1.2 := by
  push_neg at h
  obtain ⟨h1, h2, h3⟩ := h
  refine ⟨?_, ?_, ?_, ?_, ?_⟩
  · simp [TRAVEL_SPEEDS_get, h1, h2, h3]
  · simp [BUFFER_ADJUSTMENTS_get, h1, h2, h3]
  · simp [modeVariation_get, h1, h2, h3]
  · simp only [modeVariation_get, h1, h2, h3, if_false, if_true]
    norm_num
  · intro minutes
    simp [travelAdjustedDistance, TRAVEL_SPEEDS_get, BUFFER_ADJUSTMENTS_get, h1, h2, h3]

/-- Witness for C10 at the concrete unknown mode string `"transit"`. -/
theorem unknown_mode_fallback_witness :
    TRAVEL_SPEEDS_get "transit" = 3.0 ∧
    BUFFER_ADJUSTMENTS_get "transit" = 1.2 ∧
    modeVariation_get "transit" = 0.20 ∧
    modeVariation_get "transit" ≠ modeVariation_get "walk" ∧
    ∀ minutes : ℤ,
      travelAdjustedDistance minutes "transit" = (minutes : ℝ) / 60 * 3.0 / 1.2 :=
  unknown_mode_fallback "transit" (by decide)

/-! ## Claim C6 — criterion ranking -/

theorem priorityLE_iff (x y : ℕ × ℕ × ℚ) :
    priorityLE x y = true ↔
      (x.1 < y.1 ∨ (x.1 = y.1 ∧
        (x.2.1 < y.2.1 ∨ (x.2.1 = y.2.1 ∧ x.2.2 ≤ y.2.2)))) := by
  unfold priorityLE
  split_ifs <;> simp_all

theorem priorityLE_trans (x y z : ℕ × ℕ × ℚ)
    (h1 : priorityLE x y = true) (h2 : priorityLE y z = true) :
    priorityLE x z = true := by
  rw [priorityLE_iff] at h1 h2 ⊢
  rcases h1 with h1 | ⟨e1, h1⟩
  · rcases h2 with h2 | ⟨e2, h2⟩
    · exact Or.inl (h1.trans h2)
    · exact Or.inl (e2 ▸ h1)
  · rcases h2 with h2 | ⟨e2, h2⟩
    · exact Or.inl (e1 ▸ h2)
    · refine Or.inr ⟨e1.trans e2, ?_⟩
      rcases h1 with h1 | ⟨f1, h1⟩
      · rcases h2 with h2 | ⟨f2, h2⟩
        · exact Or.inl (h1.trans h2)
        · exact Or.inl (f2 ▸ h1)
      · rcases h2 with h2 | ⟨f2, h2⟩
        · exact Or.inl (f1 ▸ h2)
        · exact Or.inr ⟨f1.trans f2, h1.trans h2⟩

theorem priorityLE_total (x y : ℕ × ℕ × ℚ) :
    priorityLE x y || priorityLE y x := by
  rw [Bool.or_eq_true, priorityLE_iff, priorityLE_iff]
  rcases lt_trichotomy x.1 y.1 with h | h | h
  · exact Or.inl (Or.inl h)
  · rcases lt_trichotomy x.2.1 y.2.1 with h' | h' | h'
    · exact Or.inl (Or.inr ⟨h, Or.inl h'⟩)
    · rcases le_total x.2.2 y.2.2 with h'' | h''
      · exact Or.inl (Or.inr ⟨h, Or.inr ⟨h', h''⟩⟩)
      · exact Or.inr (Or.inr ⟨h.symm, Or.inr ⟨h'.symm, h''⟩⟩)
    · exact Or.inr (Or.inr ⟨h.symm, Or.inl h'⟩)
  · exact Or.inr (Or.inl h)

theorem criterionLE_trans (a b c : Criterion)
    (h1 : criterionLE a b) (h2 : criterionLE b c) : criterionLE a c :=
  priorityLE_trans _ _ _ h1 h2

theorem criterionLE_total (a b : Criterion) : criterionLE a b || criterionLE b a :=
  priorityLE_total _ _

/-- The sort key as the spec words it: `type_rank` is 0 for
specific-location criteria and 1 otherwise, `mode_rank` is 0/1/2/3 for
distance/walk/bike/drive, and `normalized_radius` is the value for distance
mode and `(value/60)·speed/adjustment` with (3.0, 1.2) / (12.0, 1.3) /
(30.0, 1.5) for walk/bike/drive. -/
def specPriorityKey (c : Criterion) : ℕ × ℕ × ℚ :=
  (if c.type = CriterionType.location then 0 else 1,
   match c.mode with
   | .distance => 0
   | .walk => 1
   | .bike => 2
   | .drive => 3,
   match c.mode with
   | .distance => c.value
   | .walk => c.value / 60 * 3 / (12 / 10)
   | .bike => c.value / 60 * 12 / (13 / 10)
   | .drive => c.value / 60 * 30 / (15 / 10))

/-- Claim C6 — `_order_criteria_smart` is the stable ascending sort by the
key `(type_rank, mode_rank, normalized_radius)`: the output is sorted by
the key order, is a permutation of the input, keeps elements with equal
keys in their input order, the key computed from a criterion matches the
spec's formula, and the key ignores everything but the
(type, mode, value) fields. -/
theorem order_criteria_smart_spec :
    (∀ l : List Criterion,
      (order_criteria_smart l).Pairwise (fun a b => criterionLE a b = true)) ∧
    (∀ l : List Criterion, List.Perm (order_criteria_smart l) l) ∧
    (∀ (l : List Criterion) (k : ℕ × ℕ × ℚ),
      (order_criteria_smart l).filter
          (fun c => decide (calculate_criterion_priority c = k)) =
        l.filter (fun c => decide (calculate_criterion_priority c = k))) ∧
    (∀ c : Criterion, calculate_criterion_priority c = specPriorityKey c) ∧
    (∀ (t : CriterionType) (m : TravelMode) (v : ℚ) (p1 p2 l1 l2 : Option String),
      calculate_criterion_priority ⟨t, p1, l1, m, v⟩ =
        calculate_criterion_priority ⟨t, p2, l2, m, v⟩) := by
  refine ⟨?_, ?_, ?_, ?_, ?_⟩
  · intro l
    exact List.sorted_mergeSort
      (fun a b c h1 h2 => criterionLE_trans a b c h1 h2)
      (fun a b => criterionLE_total a b) l
  · intro l
    exact List.mergeSort_perm l criterionLE
  · intro l k
    set p : Criterion → Bool := fun c => decide (calculate_criterion_priority c = k) with hp
    have hkey : ∀ c : Criterion, p c = true → calculate_criterion_priority c = k := by
      intro c hc
      simpa [hp] using hc
    have h1 : (l.filter p).Pairwise (fun a b => criterionLE a b = true) := by
      refine List.pairwise_of_forall_mem_list ?_
      intro a ha b hb
      have hpa := hkey a (List.of_mem_filter ha)
      have hpb := hkey b (List.of_mem_filter hb)
      show priorityLE (calculate_criterion_priority a) (calculate_criterion_priority b) = true
      rw [hpa, hpb, priorityLE_iff]
      exact Or.inr ⟨rfl, Or.inr ⟨rfl, le_refl _⟩⟩
    have h3 : List.Sublist (l.filter p) (List.mergeSort l criterionLE) :=
      List.sublist_mergeSort
        (fun a b c h1 h2 => criterionLE_trans a b c h1 h2)
        (fun a b => criterionLE_total a b) h1 (List.filter_sublist l)
    have h4 : List.Sublist ((l.filter p).filter p) ((List.mergeSort l criterionLE).filter p) :=
      h3.filter p
    have h5 : (l.filter p).filter p = l.filter p :=
      List.filter_eq_self.mpr fun a ha => List.of_mem_filter ha
    rw [h5] at h4
    have h6 : List.Perm ((List.mergeSort l criterionLE).filter p) (l.filter p) :=
      (List.mergeSort_perm l criterionLE).filter p
    exact (h4.eq_of_length h6.length_eq.symm).symm
  · intro c
    obtain ⟨t, pt, loc, m, v⟩ := c
    cases t <;> cases m <;>
      simp [calculate_criterion_priority, specPriorityKey, CriterionType.str,
        TravelMode.str, modeScores_get] <;> norm_num
  · intro t m v p1 p2 l1 l2
    rfl

/-! ## Claim C4 — the anisotropic vertex-radius bound

The claimed bound `R·(1−I) ≤ r(θ) ≤ R·(1+I)` fails: at the sampled angle
`θ_1 = 2π/36` the raw variation is `≈ 0.2130 > 0.20`, so after scaling by
`I/0.20` the vertex radius exceeds `R·(1+I)` for every mode.  The provable
bound replaces `I` by `0.29·(I/0.20)`, `0.29 = 0.12+0.08+0.05+0.04` being
the sum of the harmonic amplitudes. -/

theorem sin_ge_cubic {x : ℝ} (h0 : 0 ≤ x) (h1 : x ≤ 1) :
    x - x ^ 3 / 6 - x ^ 4 * (5 / 96) ≤ Real.sin x := by
  have h := Real.sin_bound (show |x| ≤ 1 by rwa [abs_of_nonneg h0])
  have h2 := (abs_sub_le_iff.mp h).2
  rw [abs_of_nonneg h0] at h2
  linarith

theorem cos_ge_quadratic {x : ℝ} (h1 : |x| ≤ 1) :
    1 - x ^ 2 / 2 - x ^ 4 * (5 / 96) ≤ Real.cos x := by
  have h := Real.cos_bound h1
  have h2 := (abs_sub_le_iff.mp h).2
  have h3 : |x| ^ 4 = x ^ 4 := by
    rw [← abs_pow]
    exact abs_of_nonneg (by positivity)
  rw [h3] at h2
  linarith

theorem sin_poly_lower (x l u c d b : ℝ) (h0 : 0 ≤ l) (hl : l ≤ x) (hu : x ≤ u)
    (hu1 : u ≤ 1) (h3 : u ^ 3 ≤ c) (h4 : u ^ 4 ≤ d)
    (hb : b ≤ l - c / 6 - d * (5 / 96)) : b ≤ Real.sin x := by
  have h0x : (0 : ℝ) ≤ x := le_trans h0 hl
  have hb2 := sin_ge_cubic h0x (le_trans hu hu1)
  have e3 : x ^ 3 ≤ c := le_trans (pow_le_pow_left₀ h0x hu 3) h3
  have e4 : x ^ 4 ≤ d := le_trans (pow_le_pow_left₀ h0x hu 4) h4
  linarith

theorem cos_poly_lower (x m c d b : ℝ) (hl : -m ≤ x) (hu : x ≤ m) (hm : m ≤ 1)
    (h2 : m ^ 2 ≤ c) (h4 : m ^ 4 ≤ d)
    (hb : b ≤ 1 - c / 2 - d * (5 / 96)) : b ≤ Real.cos x := by
  have habs : |x| ≤ 1 := by rw [abs_le]; constructor <;> linarith
  have hb2 := cos_ge_quadratic habs
  have e2 : x ^ 2 ≤ c := le_trans (sq_le_sq' hl hu) h2
  have e4 : x ^ 4 ≤ d := by
    have e : x ^ 4 = (x ^ 2) ^ 2 := by ring
    have e2' : (x ^ 2) ^ 2 ≤ (m ^ 2) ^ 2 :=
      pow_le_pow_left₀ (sq_nonneg x) (sq_le_sq' hl hu) 2
    have e4' : (m ^ 2) ^ 2 ≤ d := by
      have em : (m ^ 2) ^ 2 = m ^ 4 := by ring
      rw [em]; exact h4
    rw [e]; exact le_trans e2' e4'
  linarith

theorem sin_term1 : (0.594 : ℝ) ≤ Real.sin (Real.pi / 9 + 0.3) := by
  have hπl := Real.pi_gt_d6
  have hπu := Real.pi_lt_d6
  exact sin_poly_lower _ 0.649 0.6491 0.2735 0.17755 _
    (by norm_num) (by linarith) (by linarith) (by norm_num) (by norm_num) (by norm_num)
    (by norm_num)

theorem sin_term2 : (0.9458 : ℝ) ≤ Real.sin (2 * Real.pi / 9 + 1.2) := by
  have hπl := Real.pi_gt_d6
  have hπu := Real.pi_lt_d6
  rw [← Real.cos_pi_div_two_sub]
  exact cos_poly_lower _ 0.3273356 0.1071486 0.011481 _
    (by linarith) (by linarith) (by norm_num) (by norm_num) (by norm_num)
    (by norm_num)

theorem sin_term3 : (0.491 : ℝ) ≤ Real.sin (Real.pi / 6 + 2.1) := by
  have hπl := Real.pi_gt_d6
  have hπu := Real.pi_lt_d6
  rw [← Real.sin_pi_sub]
  exact sin_poly_lower _ 0.5179933 0.518 0.139 0.072 _
    (by norm_num) (by linarith) (by linarith) (by norm_num) (by norm_num) (by norm_num)
    (by norm_num)

theorem sin_term4 : (0.9999 : ℝ) ≤ Real.sin (5 * Real.pi / 18 + 0.7) := by
  have hπl := Real.pi_gt_d6
  have hπu := Real.pi_lt_d6
  rw [← Real.cos_pi_div_two_sub]
  exact cos_poly_lower _ 0.0019 0.0000037 0.00000002 _
    (by linarith) (by linarith) (by norm_num) (by norm_num) (by norm_num)
    (by norm_num)

/-- At the second sampled angle `θ_1 = 2π·1/36` the raw sine-harmonic
variation exceeds `0.20` (its true value is `≈ 0.21304`). -/
theorem sineVariation_angle1_gt : (0.2 : ℝ) < sineVariation (bufferAngle 1) := by
  have e1 : 2 * bufferAngle 1 + 0.3 = Real.pi / 9 + 0.3 := by
    unfold bufferAngle; push_cast; ring
  have e2 : 4 * bufferAngle 1 + 1.2 = 2 * Real.pi / 9 + 1.2 := by
    unfold bufferAngle; push_cast; ring
  have e3 : 3 * bufferAngle 1 + 2.1 = Real.pi / 6 + 2.1 := by
    unfold bufferAngle; push_cast; ring
  have e4 : 5 * bufferAngle 1 + 0.7 = 5 * Real.pi / 18 + 0.7 := by
    unfold bufferAngle; push_cast; ring
  unfold sineVariation
  rw [e1, e2, e3, e4]
  have t1 := sin_term1
  have t2 := sin_term2
  have t3 := sin_term3
  have t4 := sin_term4
  linarith

/-- Counterexample to claim C4 as stated: for walk mode (intensity
`I = 0.15`) and base radius `R = 1`, the vertex radius at sampled angle
index 1 exceeds the claimed upper bound `R·(1+I) = 1.15`. -/
theorem anisotropic_bound_violated_at_idx1 :
    1 * (1 + modeVariation_get "walk") < adjustedDistance 1 "walk" 1 := by
  have h := sineVariation_angle1_gt
  have hw : modeVariation_get "walk" = 0.15 := by simp [modeVariation_get]
  unfold adjustedDistance
  rw [hw]
  linarith

theorem sineVariation_abs_le (θ : ℝ) : |sineVariation θ| ≤ 0.29 := by
  unfold sineVariation
  have a1 := Real.neg_one_le_sin (2 * θ + 0.3)
  have b1 := Real.sin_le_one (2 * θ + 0.3)
  have a2 := Real.neg_one_le_sin (4 * θ + 1.2)
  have b2 := Real.sin_le_one (4 * θ + 1.2)
  have a3 := Real.neg_one_le_sin (3 * θ + 2.1)
  have b3 := Real.sin_le_one (3 * θ + 2.1)
  have a4 := Real.neg_one_le_sin (5 * θ + 0.7)
  have b4 := Real.sin_le_one (5 * θ + 0.7)
  rw [abs_le]
  constructor <;> linarith

theorem modeVariation_get_nonneg (mode : String) : 0 ≤ modeVariation_get mode := by
  unfold modeVariation_get
  split_ifs <;> norm_num

/-- Claim C4 (amended) — for every base radius `R ≥ 0`, mode and sampled
angle index, the vertex radius computed by `_create_realistic_buffer` lies
within `R·(1 ± 0.29·(I/0.20))` where `I` is the mode intensity; the
originally claimed `R·(1 ± I)` envelope is refuted by
`anisotropic_bound_violated_at_idx1`. -/
theorem anisotropic_vertex_radius_bound (R : ℝ) (mode : String) (i : ℕ) (hR : 0 ≤ R) :
    R * (1 - 0.29 * (modeVariation_get mode / 0.20)) ≤ adjustedDistance R mode i ∧
    adjustedDistance R mode i ≤ R * (1 + 0.29 * (modeVariation_get mode / 0.20)) := by
  have hv := sineVariation_abs_le (bufferAngle i)
  rw [abs_le] at hv
  have hI : 0 ≤ modeVariation_get mode / 0.20 :=
    div_nonneg (modeVariation_get_nonneg mode) (by norm_num)
  unfold adjustedDistance
  constructor
  · nlinarith [mul_nonneg (mul_nonneg hR hI)
      (by linarith : (0 : ℝ) ≤ sineVariation (bufferAngle i) + 0.29)]
  · nlinarith [mul_nonneg (mul_nonneg hR hI)
      (by linarith : (0 : ℝ) ≤ 0.29 - sineVariation (bufferAngle i))]

/-- Witness for the amended C4 bound at `R = 1`, walk mode, angle index 0. -/
theorem anisotropic_vertex_radius_bound_witness :
    1 * (1 - 0.29 * (modeVariation_get "walk" / 0.20)) ≤ adjustedDistance 1 "walk" 0 ∧
    adjustedDistance 1 "walk" 0 ≤ 1 * (1 + 0.29 * (modeVariation_get "walk" / 0.20)) :=
  anisotropic_vertex_radius_bound 1 "walk" 0 (by norm_num)

/-! ## Claim C3 — which criteria get the anisotropic buffer -/

/-- A POI-type criterion asking for a 10-minute walk to a park. -/
def walkParkCriterion : Criterion :=
  ⟨CriterionType.poi, some "Park", none, TravelMode.walk, 10⟩

/-- Counterexample to claim C3 as stated: this walk-mode POI-type criterion
is dispatched to `add_simple_buffer_criterion` (plain circular buffers,
with the raw value `10` reinterpreted as miles), not to the anisotropic
travel-time path. -/
theorem poi_walk_criterion_gets_simple_buffer :
    dispatchCriterion walkParkCriterion =
      AnalyzerCall.simpleBuffer (some [("leisure", "park")]) none 10 (some "Park") ∧
    (dispatchCriterion walkParkCriterion).isTravelTime = false := by
  constructor
  · decide
  · decide

/-- Claim C3 (amended) — only specific-location criteria with a walk, bike
or drive mode reach `add_travel_time_criterion`; every POI-type criterion
is dispatched to the simple circular-buffer method regardless of mode.  On
the travel-time path, the raw geometry really is the union of one
anisotropic `_create_realistic_buffer` polygon per source point. -/
theorem anisotropic_buffer_for_location_time_criteria :
    (∀ c : Criterion, c.type = CriterionType.location → c.mode ≠ TravelMode.distance →
      dispatchCriterion c = AnalyzerCall.travelTime c.location (pyInt c.value) c.mode.str
        (c.location.map fun s => s.take 30)) ∧
    (∀ c : Criterion, c.type = CriterionType.poi →
      dispatchCriterion c =
        AnalyzerCall.simpleBuffer (POI_TYPES_get c.poi_type) none c.value c.poi_type) ∧
    (∀ (P : List Point → Geom) (oracle : Geom → Option (List Feature)) (a : TravelArgs)
        (st : AnalyzerState) (pois : List Feature),
      oracle (travelQueryArea st a) = some pois → pois ≠ [] →
      (add_travel_time_criterion P oracle a st).2 =
        some (travelCombinedBuffer P pois
          (travelAdjustedDistance a.max_time_minutes a.travel_mode * MILES_TO_METERS)
          a.travel_mode ∩ st.current_search_area)) := by
  refine ⟨?_, ?_, ?_⟩
  · intro c h1 h2
    obtain ⟨t, pt, loc, m, v⟩ := c
    cases t with
    | poi => cases h1
    | location =>
      cases m <;> simp_all [dispatchCriterion, CriterionType.str, TravelMode.str]
  · intro c h1
    obtain ⟨t, pt, loc, m, v⟩ := c
    cases t with
    | poi => simp [dispatchCriterion, CriterionType.str]
    | location => cases h1
  · intro P oracle a st pois h hne
    simp [add_travel_time_criterion, h, List.isEmpty_eq_false.mpr hne]

/-- Witness for the amended C3 at concrete criteria and a concrete
travel-time application. -/
theorem anisotropic_buffer_for_location_time_criteria_witness :
    dispatchCriterion ⟨CriterionType.location, none, some "Duke University", TravelMode.drive, 15⟩ =
      AnalyzerCall.travelTime (some "Duke University") (pyInt 15) (TravelMode.drive).str
        ((some "Duke University").map fun s => s.take 30) ∧
    dispatchCriterion ⟨CriterionType.poi, some "School", none, TravelMode.distance, 2⟩ =
      AnalyzerCall.simpleBuffer (POI_TYPES_get (some "School")) none 2 (some "School") ∧
    (add_travel_time_criterion (fun _ => ∅) (fun _ => some [fPointDemo])
        ⟨none, some "Duke University", 15, "drive", none⟩ stDemo).2 =
      some (travelCombinedBuffer (fun _ => ∅) [fPointDemo]
        (travelAdjustedDistance 15 "drive" * MILES_TO_METERS) "drive" ∩
        stDemo.current_search_area) :=
  ⟨anisotropic_buffer_for_location_time_criteria.1
      ⟨CriterionType.location, none, some "Duke University", TravelMode.drive, 15⟩
      rfl (by decide),
   anisotropic_buffer_for_location_time_criteria.2.1
      ⟨CriterionType.poi, some "School", none, TravelMode.distance, 2⟩ rfl,
   anisotropic_buffer_for_location_time_criteria.2.2 (fun _ => ∅)
      (fun _ => some [fPointDemo]) ⟨none, some "Duke University", 15, "drive", none⟩
      stDemo [fPointDemo] rfl (by simp)⟩

/-! ## Claim C8 — centroid reduction of polygon features -/

/-- Modelled from the spec: the combined buffer a centroid-reduced feature
list would produce — every feature replaced by its centroid point before
dilation ("buildings may be returned as polygons and must be
centroid-reduced to points for buffering").  Comparator for the refinement
check; the simple path of the source dilates `f.geometry` directly. -/
noncomputable def specCentroidReducedBuffer (pois : List Feature) (buffer_meters : ℝ) : Geom :=
  unionAll (pois.map fun f => dilate {f.centroid} buffer_meters)

/-- A building-footprint feature: a 10000 m × 100 m rectangle with centroid
`(5000, 50)`. -/
def rectFeature : Feature :=
  ⟨{p : Point | 0 ≤ p.1 ∧ p.1 ≤ 10000 ∧ 0 ≤ p.2 ∧ p.2 ≤ 100},
   ((5000 : ℝ), (50 : ℝ)), "Polygon"⟩

/-- Counterexample to claim C8 as stated: in the simple path the polygon
feature is NOT reduced to its centroid — the point `(-1000, 0)` is within
one mile of the rectangle's near edge (so it is in the buffer the code
computes) but more than one mile from the centroid (so it would not be in
the centroid-reduced buffer the claim describes). -/
theorem simple_path_not_centroid_reduced :
    rectFeature.geomType = "Polygon" ∧
    ((-1000 : ℝ), (0 : ℝ)) ∈ simpleCombinedBuffer [rectFeature] (1 * MILES_TO_METERS) ∧
    ((-1000 : ℝ), (0 : ℝ)) ∉ specCentroidReducedBuffer [rectFeature] (1 * MILES_TO_METERS) := by
  refine ⟨rfl, ?_, ?_⟩
  · show ((-1000 : ℝ), (0 : ℝ)) ∈ dilate rectFeature.geometry (1 * MILES_TO_METERS) ∪ ∅
    refine Set.mem_union_left _ ?_
    refine ⟨((0 : ℝ), (0 : ℝ)), ?_, ?_⟩
    · show (0 : ℝ) ≤ 0 ∧ (0 : ℝ) ≤ 10000 ∧ (0 : ℝ) ≤ 0 ∧ (0 : ℝ) ≤ 100
      norm_num
    · show sqDist ((-1000 : ℝ), (0 : ℝ)) ((0 : ℝ), (0 : ℝ)) ≤ (1 * MILES_TO_METERS) ^ 2
      norm_num [sqDist, MILES_TO_METERS]
  · intro h
    rcases h with h | h
    · obtain ⟨q, hq, hd⟩ := h
      rw [Set.mem_singleton_iff] at hq
      subst hq
      rw [show rectFeature.centroid = ((5000 : ℝ), (50 : ℝ)) from rfl] at hd
      norm_num [sqDist, MILES_TO_METERS] at hd
    · exact h

/-- Claim C8 (amended) — the travel-time path reduces every feature to its
centroid before buffering (the combined buffer depends only on the
centroids); the simple path dilates the raw feature geometry instead,
which agrees with centroid reduction exactly when a feature's geometry is
the single centroid point. -/
theorem centroid_reduction_per_path :
    (∀ (P : List Point → Geom) (pois pois' : List Feature) (m : ℝ) (mode : String),
      pois.map (·.centroid) = pois'.map (·.centroid) →
      travelCombinedBuffer P pois m mode = travelCombinedBuffer P pois' m mode) ∧
    (∀ (pois : List Feature) (m : ℝ),
      (∀ f ∈ pois, f.geometry = {f.centroid}) →
      simpleCombinedBuffer pois m = specCentroidReducedBuffer pois m) := by
  constructor
  · intro P pois pois' m mode h
    unfold travelCombinedBuffer
    have e1 : pois.map (fun f => create_realistic_buffer P f.centroid.1 f.centroid.2 m mode) =
        (pois.map (·.centroid)).map (fun c => create_realistic_buffer P c.1 c.2 m mode) := by
      rw [List.map_map]
      rfl
    have e2 : pois'.map (fun f => create_realistic_buffer P f.centroid.1 f.centroid.2 m mode) =
        (pois'.map (·.centroid)).map (fun c => create_realistic_buffer P c.1 c.2 m mode) := by
      rw [List.map_map]
      rfl
    rw [e1, e2, h]
  · intro pois m h
    unfold simpleCombinedBuffer specCentroidReducedBuffer
    have e : pois.map (fun f => dilate f.geometry m) =
        pois.map (fun f => dilate {f.centroid} m) := by
      apply List.map_congr_left
      intro f hf
      rw [h f hf]
    rw [e]

/-- A polygon feature and a point feature sharing the same centroid. -/
def fPolyDemo : Feature :=
  ⟨{((1 : ℝ), (2 : ℝ)), ((3 : ℝ), (4 : ℝ))}, ((1 : ℝ), (2 : ℝ)), "Polygon"⟩

/-- The point feature at the centroid of `fPolyDemo`. -/
def fCentroidDemo : Feature :=
  ⟨{((1 : ℝ), (2 : ℝ))}, ((1 : ℝ), (2 : ℝ)), "Point"⟩

/-- Witness for the amended C8 at concrete feature lists. -/
theorem centroid_reduction_per_path_witness :
    travelCombinedBuffer (fun _ => ∅) [fPolyDemo] 5 "walk" =
      travelCombinedBuffer (fun _ => ∅) [fCentroidDemo] 5 "walk" ∧
    simpleCombinedBuffer [fCentroidDemo] 5 = specCentroidReducedBuffer [fCentroidDemo] 5 :=
  ⟨centroid_reduction_per_path.1 (fun _ => ∅) [fPolyDemo] [fCentroidDemo] 5 "walk" rfl,
   centroid_reduction_per_path.2 [fCentroidDemo] 5 (by
     intro f hf
     rw [List.mem_singleton] at hf
     subst hf
     rfl)⟩

/-! ## Claim C9 — atomicity of criterion updates -/

/-- Claim C9 (amended) — whenever an exception escapes either criterion
method, the analyzer state is either exactly the pre-call state (the
exception was raised before the new geometry was fully computed — the two
writes had not happened) or the fully-updated, mutually consistent
post-write state (the exception was raised by the area computation that
runs after both writes).  A partially-updated state — area swapped without
the result appended, or vice versa — is impossible. -/
theorem criterion_update_atomic (K : FallibleOps) (P : List Point → Geom)
    (a : SimpleArgs) (a2 : TravelArgs) (st : AnalyzerState) (e e2 : String)
    (st1 st2 : AnalyzerState) :
    (add_simple_buffer_criterion_run K a st = .error (e, st1) → AtomicOutcome st st1) ∧
    (add_travel_time_criterion_run P K a2 st = .error (e2, st2) → AtomicOutcome st st2) := by
  constructor
  · intro h
    unfold add_simple_buffer_criterion_run at h
    repeat' split at h
    all_goals
      first
      | exact Except.noConfusion h
      | (injection h with hp
         injection hp with he hst
         subst hst
         first
         | exact Or.inl rfl
         | exact Or.inr ⟨_, _, _, rfl⟩)
  · intro h
    unfold add_travel_time_criterion_run at h
    repeat' split at h
    all_goals
      first
      | exact Except.noConfusion h
      | (injection h with hp
         injection hp with he hst
         subst hst
         first
         | exact Or.inl rfl
         | exact Or.inr ⟨_, _, _, rfl⟩)

/-- External operations that fail at the very first call site (the query
expansion) and succeed everywhere else. -/
noncomputable def expandFailOps : FallibleOps where
  expandQueryArea := fun _ _ => .error "proj"
  getPois := fun _ => some [fPointDemo]
  projectFeatures := fun fs => .ok fs
  bufferEach := fun gs _ => .ok gs
  unionAllGeoms := fun gs => .ok (unionAll gs)
  unprojectGeom := fun g => .ok g
  intersectGeom := fun g h => .ok (g ∩ h)
  areaSqMiles := fun _ => .ok 0

/-- Witness for the amended C9: a failure before the writes leaves exactly
the pre-call state on both paths. -/
theorem criterion_update_atomic_witness :
    AtomicOutcome stDemo stDemo ∧ AtomicOutcome stDemo stDemo :=
  ⟨(criterion_update_atomic expandFailOps (fun _ => ∅)
      ⟨some [("amenity", "school")], none, 1, none⟩
      ⟨some [("leisure", "park")], none, 10, "walk", none⟩
      stDemo "proj" "proj" stDemo stDemo).1 rfl,
   (criterion_update_atomic expandFailOps (fun _ => ∅)
      ⟨some [("amenity", "school")], none, 1, none⟩
      ⟨some [("leisure", "park")], none, 10, "walk", none⟩
      stDemo "proj" "proj" stDemo stDemo).2 rfl⟩

/-- External operations that succeed on every geometry call but whose area
computation (which the source runs after the two state writes) fails. -/
noncomputable def areaFailOps : FallibleOps where
  expandQueryArea := fun st _ => .ok st.current_search_area
  getPois := fun _ => some [fPointDemo]
  projectFeatures := fun fs => .ok fs
  bufferEach := fun gs _ => .ok gs
  unionAllGeoms := fun gs => .ok (unionAll gs)
  unprojectGeom := fun g => .ok g
  intersectGeom := fun g h => .ok (g ∩ h)
  areaSqMiles := fun _ => .error "area"

/-- The fully-updated state the post-write area failure escapes with. -/
noncomputable def areaFailState : AnalyzerState :=
  criterionUpdate stDemo "Buffer" (Desc.simple 1)
    (unionAll [fPointDemo.geometry] ∩ stDemo.current_search_area)

/-- Counterexample to claim C9 as stated: when the post-write area
computation raises, the exception escapes `add_simple_buffer_criterion`
while `current_search_area` and `criteria_results` hold the NEW values,
not the pre-call ones. -/
theorem exception_after_write_keeps_new_state :
    add_simple_buffer_criterion_run areaFailOps ⟨none, some "Duke University", 1, none⟩
      stDemo = .error ("area", areaFailState) ∧
    areaFailState ≠ stDemo := by
  constructor
  · rfl
  · intro hEq
    have h := congrArg AnalyzerState.criteria_results hEq
    simp [areaFailState, criterionUpdate, stDemo] at h

end LocAnalyzer
